import Mathlib

/-!
Shallow embedding of the cache-aside analysis pipeline of `lyrics-decoder`
(`src/database/db.py`, `src/database/operations.py`,
`src/frontend/service/analyze_service.py`, `src/frontend/bot.py`).

Modelling conventions:
* SQLite rows become Lean structures; a table is a `List` of rows kept in
  rowid (insertion) order, so `fetchone` of an unordered `SELECT` is
  `List.find?` and `AUTOINCREMENT` is an explicit `next` counter.
* `CURRENT_TIMESTAMP` and `datetime.now()` are a `Nat` parameter `now`
  (timestamps counted in days, the only unit the code does arithmetic in).
* Python `str.lower().strip()` and SQLite `LOWER(TRIM(x))` are modelled over
  ASCII text by character-level case folding and end trimming (SQLite's
  builtins fold ASCII case and trim blanks; on the ASCII inputs used here
  they agree with Python's).
* A Python exception is an `Except String` error carrying `str(e)`.
-/

/-- Character-wise ASCII lowercasing (`str.lower()` / SQLite `LOWER`,
which agree on ASCII text). -/
def strLower (s : String) : String := ⟨s.data.map Char.toLower⟩

/-- Strip leading and trailing whitespace (`str.strip()` / SQLite `TRIM`,
which agree on blank-delimited ASCII text). -/
def strTrim (s : String) : String :=
  ⟨((s.data.dropWhile Char.isWhitespace).reverse.dropWhile
      Char.isWhitespace).reverse⟩

/-- Python-side lookup normalization, `artist.lower().strip()`
(`operations.py`, `get_cached_song`). -/
def pyNormalize (s : String) : String := strTrim (strLower s)

/-- SQL-side normalization `LOWER(TRIM(x))` applied to a stored column or a
bound parameter (`operations.py`, `get_cached_song` / `cache_song`). -/
def sqlNormalize (s : String) : String := strLower (strTrim s)

/-- A row of table `song_cache` (`db.py`, `init_db`): `id PK AUTOINCREMENT`,
raw `artist`/`song_name`, `lyrics NOT NULL`, nullable `analysis_summary`,
`cached_at`/`last_accessed` timestamps, `access_count DEFAULT 1`,
and `UNIQUE(artist, song_name)` on the raw columns. -/
structure CacheEntry where
  id : Nat
  artist : String
  song_name : String
  lyrics : String
  analysis_summary : Option String
  cached_at : Nat
  access_count : Nat
  last_accessed : Nat
deriving DecidableEq, Repr

/-- A row of table `users` (`db.py`, `init_db`). -/
structure UserRow where
  user_id : Nat
  username : Option String
  created_at : Nat
  last_activity : Nat
  total_requests : Nat
deriving DecidableEq, Repr

/-- A row of table `query_history` (`db.py`, `init_db`). -/
structure HistoryRow where
  id : Nat
  user_id : Nat
  artist : String
  song_name : String
  query_date : Nat
  success : Bool
  error_message : Option String
deriving DecidableEq, Repr

/-- The SQLite database state: the three tables in rowid order plus the
next `AUTOINCREMENT` value of each autoincremented table. -/
structure DB where
  users : List UserRow
  query_history : List HistoryRow
  next_history_id : Nat
  song_cache : List CacheEntry
  next_cache_id : Nat
deriving DecidableEq, Repr

/-- A freshly initialised database (`init_db`): empty tables,
autoincrement counters at 1. -/
def emptyDB : DB :=
  { users := [], query_history := [], next_history_id := 1,
    song_cache := [], next_cache_id := 1 }

/-- The `WHERE` test of `get_cached_song`: stored columns pass through
`LOWER(TRIM(·))`, the bound parameters were normalized Python-side. -/
def getMatch (artist song : String) (e : CacheEntry) : Bool :=
  sqlNormalize e.artist == pyNormalize artist &&
    sqlNormalize e.song_name == pyNormalize song

/-- The `WHERE` test of the fallback `UPDATE`/`SELECT` in `cache_song`:
both sides pass through `LOWER(TRIM(·))` in SQL. -/
def putMatch (artist song : String) (e : CacheEntry) : Bool :=
  sqlNormalize e.artist == sqlNormalize artist &&
    sqlNormalize e.song_name == sqlNormalize song

/-- The raw-column equality enforced by `UNIQUE(artist, song_name)`
(BINARY collation, i.e. exact string equality). -/
def rawMatch (artist song : String) (e : CacheEntry) : Bool :=
  e.artist == artist && e.song_name == song

/-- `operations.get_cached_song`: normalize the query Python-side, `fetchone`
the first row whose `LOWER(TRIM(...))` columns match, and on a hit bump that
row's `access_count` and `last_accessed` by id. The returned row is the
snapshot taken before the `UPDATE` (`dict(row)` is built first). -/
def get_cached_song (artist song : String) (now : Nat) (db : DB) :
    Option CacheEntry × DB :=
  match db.song_cache.find? (getMatch artist song) with
  | some row =>
      (some row,
       { db with song_cache := db.song_cache.map fun e =>
           if e.id == row.id then
             { e with access_count := e.access_count + 1, last_accessed := now }
           else e })
  | none => (none, db)

/-- The row update applied by the fallback `UPDATE` of `cache_song` to every
row matching the normalized key. -/
def putOverwrite (artist song lyrics : String) (summary : Option String)
    (now : Nat) (e : CacheEntry) : CacheEntry :=
  if putMatch artist song e then
    { e with lyrics := lyrics, analysis_summary := summary,
             access_count := e.access_count + 1, last_accessed := now }
  else e

/-- `operations.cache_song`: try `INSERT INTO song_cache`; the insert raises
exactly when `UNIQUE(artist, song_name)` — raw columns — is violated, in
which case the `except` branch runs `UPDATE ... WHERE LOWER(TRIM(...)) = LOWER(TRIM(?))`
on the normalized key, re-`fetchone`s the id of the first normalized match,
and returns it (`row['id'] if row else None`). A fresh insert uses the
column defaults `access_count = 1`, `cached_at = last_accessed = now`. -/
def cache_song (artist song lyrics : String) (summary : Option String)
    (now : Nat) (db : DB) : Option Nat × DB :=
  if db.song_cache.any (rawMatch artist song) then
    let updated := db.song_cache.map (putOverwrite artist song lyrics summary now)
    ((updated.find? (putMatch artist song)).map (·.id),
     { db with song_cache := updated })
  else
    (some db.next_cache_id,
     { db with
         song_cache := db.song_cache ++
           [{ id := db.next_cache_id, artist := artist, song_name := song,
              lyrics := lyrics, analysis_summary := summary, cached_at := now,
              access_count := 1, last_accessed := now }],
         next_cache_id := db.next_cache_id + 1 })

/-- The deletion test of `operations.clean_old_cache`:
`last_accessed < date_threshold AND access_count < 5` with
`date_threshold = now - days` (the popularity bound 5 is a literal in the
SQL, not a parameter). -/
def staleTest (days now : Nat) (e : CacheEntry) : Bool :=
  e.last_accessed < now - days && e.access_count < 5

/-- `operations.clean_old_cache`: delete the stale low-traffic rows and
return `cursor.rowcount`, the number deleted. -/
def clean_old_cache (days now : Nat) (db : DB) : Nat × DB :=
  ((db.song_cache.filter (staleTest days now)).length,
   { db with song_cache := db.song_cache.filter fun e => !staleTest days now e })

/-- The projection selected by `get_popular_songs`
(`SELECT artist, song_name, access_count, last_accessed`). -/
structure PopularRow where
  artist : String
  song_name : String
  access_count : Nat
  last_accessed : Nat
deriving DecidableEq, Repr

/-- Projection of a cache row to the columns `get_popular_songs` selects. -/
def CacheEntry.toPopular (e : CacheEntry) : PopularRow :=
  { artist := e.artist, song_name := e.song_name,
    access_count := e.access_count, last_accessed := e.last_accessed }

/-- The ordering of `ORDER BY access_count DESC, last_accessed DESC`
on cache rows: `a` may precede `b`. -/
def popBefore (a b : CacheEntry) : Prop :=
  b.access_count < a.access_count ∨
    (a.access_count = b.access_count ∧ b.last_accessed ≤ a.last_accessed)

instance : DecidableRel popBefore := fun a b => by
  unfold popBefore; infer_instance

instance : IsTotal CacheEntry popBefore :=
  ⟨fun a b => by unfold popBefore; omega⟩

instance : IsTrans CacheEntry popBefore :=
  ⟨fun a b c h₁ h₂ => by unfold popBefore at *; omega⟩

/-- The same ordering on the projected rows. -/
def popBeforeRow (a b : PopularRow) : Prop :=
  b.access_count < a.access_count ∨
    (a.access_count = b.access_count ∧ b.last_accessed ≤ a.last_accessed)

/-- `operations.get_popular_songs`: the cache rows sorted by
`access_count DESC, last_accessed DESC`, truncated by `LIMIT`, projected to
the selected columns. -/
def get_popular_songs (limit : Nat) (db : DB) : List PopularRow :=
  ((List.insertionSort popBefore db.song_cache).take limit).map CacheEntry.toPopular

/-- `operations.increment_user_requests`:
`UPDATE users SET total_requests = total_requests + 1, last_activity = CURRENT_TIMESTAMP WHERE user_id = ?`. -/
def increment_user_requests (user_id now : Nat) (db : DB) : DB :=
  { db with users := db.users.map fun u =>
      if u.user_id == user_id then
        { u with total_requests := u.total_requests + 1, last_activity := now }
      else u }

/-- The history row inserted by `add_query_to_history`. -/
def newHistoryRow (user_id : Nat) (artist song : String) (success : Bool)
    (error_message : Option String) (now : Nat) (db : DB) : HistoryRow :=
  { id := db.next_history_id, user_id := user_id, artist := artist,
    song_name := song, query_date := now, success := success,
    error_message := error_message }

/-- `operations.add_query_to_history`: `INSERT INTO query_history ...`
(each `db.execute` autocommits), then `increment_user_requests(user_id)`;
returns `cursor.lastrowid` of the insert. -/
def add_query_to_history (user_id : Nat) (artist song : String)
    (success : Bool) (error_message : Option String) (now : Nat) (db : DB) :
    Nat × DB :=
  let db₁ :=
    { db with
        query_history := db.query_history ++
          [newHistoryRow user_id artist song success error_message now db],
        next_history_id := db.next_history_id + 1 }
  (db.next_history_id, increment_user_requests user_id now db₁)

/-- The database state observed when `increment_user_requests` raises inside
`add_query_to_history`: the history `INSERT` has already been committed by
its own `db.execute`, the counter `UPDATE` never runs, and the exception
propagates to the caller. -/
def add_query_to_history_counterFault (user_id : Nat) (artist song : String)
    (success : Bool) (error_message : Option String) (now : Nat) (db : DB) :
    DB :=
  { db with
      query_history := db.query_history ++
        [newHistoryRow user_id artist song success error_message now db],
      next_history_id := db.next_history_id + 1 }

/-- Python truthiness of `cached_data.get('analysis_summary')`: `NULL`
(column absent) and the empty string are both falsy. -/
def truthySummary : Option String → Bool
  | some s => s != ""
  | none => false

/-- Whether a `get_cached_song` result is a hit served from cache by
`analyze` (`if cached_data and cached_data.get('analysis_summary'):`). -/
def truthyHit : Option CacheEntry → Bool
  | some row => truthySummary row.analysis_summary
  | none => false

instance {ε α : Type} [DecidableEq ε] [DecidableEq α] :
    DecidableEq (Except ε α) := fun x y =>
  match x, y with
  | .ok a, .ok b =>
      if h : a = b then .isTrue (by rw [h])
      else .isFalse (by intro hc; cases hc; exact h rfl)
  | .error a, .error b =>
      if h : a = b then .isTrue (by rw [h])
      else .isFalse (by intro hc; cases hc; exact h rfl)
  | .ok _, .error _ => .isFalse (by intro hc; cases hc)
  | .error _, .ok _ => .isFalse (by intro hc; cases hc)

/-- The value `analyze` returns: the dict `{'summary': ..., 'lyrics': ...?,
'from_cache': ...}`; `lyrics := none` models a dict with no `lyrics` key. -/
structure AnalyzeResult where
  summary : String
  lyrics : Option String
  from_cache : Bool
deriving DecidableEq, Repr

/-- The fetch-and-compute tail of `AnylyzeService.analyze` (everything after
the cache check failed): `fetch_lyrics` failure is re-raised as
`Exception(f"Ошибка Genius API: {e}")`; `interpret_lyrics` failure
propagates as-is; the `cache_song` call sits in a `try/except` that only
logs, modelled by `store_write` — `none` means the write raised (state
unchanged), `some w` means it ran and produced state `w lyrics summary db`.
The returned dict is `interpret_lyrics`'s `{'summary': s}` with
`'from_cache': False` added — it has no `'lyrics'` key. -/
def analyzeFetchPath (fetch_lyrics : Except String String)
    (interpret : String → Except String String)
    (store_write : Option (String → Option String → DB → DB)) (db : DB) :
    Except String AnalyzeResult × DB :=
  match fetch_lyrics with
  | .error e => (.error ("Ошибка Genius API: " ++ e), db)
  | .ok lyrics =>
    match interpret lyrics with
    | .error e => (.error e, db)
    | .ok summary =>
      let db₂ := match store_write with
        | some w => w lyrics (some summary) db
        | none => db
      (.ok { summary := summary, lyrics := none, from_cache := false }, db₂)

/-- `AnylyzeService.analyze` with the store-read outcome made explicit.
`store_read` is the outcome of the opening `get_cached_song(artist, song)`
call: `.error e` models that call raising (there is no `try/except` around
it, so the exception propagates out of `analyze` with the state it left,
here `fallback_db`); `.ok (row?, db)` is its normal return. On a hit whose
`analysis_summary` is truthy the cached dict — which does carry `lyrics` —
is returned with `from_cache := true`; otherwise the fetch path runs. -/
def analyzeE (store_read : Except String (Option CacheEntry × DB))
    (fetch_lyrics : Except String String)
    (interpret : String → Except String String)
    (store_write : Option (String → Option String → DB → DB))
    (fallback_db : DB) : Except String AnalyzeResult × DB :=
  match store_read with
  | .error e => (.error e, fallback_db)
  | .ok (cached_data, db) =>
    match cached_data with
    | some row =>
      match row.analysis_summary with
      | some s =>
        if s == "" then analyzeFetchPath fetch_lyrics interpret store_write db
        else (.ok { summary := s, lyrics := some row.lyrics, from_cache := true }, db)
      | none => analyzeFetchPath fetch_lyrics interpret store_write db
    | none => analyzeFetchPath fetch_lyrics interpret store_write db

/-- `AnylyzeService.analyze` with both store operations executing normally:
the read is `get_cached_song` and the write is `cache_song` on the raw
artist/title with the computed summary (`result.get('summary')`). -/
def analyze (artist song : String) (fetch_lyrics : Except String String)
    (interpret : String → Except String String) (now : Nat) (db : DB) :
    Except String AnalyzeResult × DB :=
  analyzeE (.ok (get_cached_song artist song now db)) fetch_lyrics interpret
    (some fun lyrics summary db => (cache_song artist song lyrics summary now db).2)
    db

/-- `AnylyzeService.analyze` when the `cache_song` call raises: the
surrounding `try/except` only logs the error, so the computed result is
still returned and the cache write leaves no state change. -/
def analyze_cacheWriteFault (artist song : String)
    (fetch_lyrics : Except String String)
    (interpret : String → Except String String) (now : Nat) (db : DB) :
    Except String AnalyzeResult × DB :=
  analyzeE (.ok (get_cached_song artist song now db)) fetch_lyrics interpret
    none db

/-- `AnylyzeService.analyze` when the opening `get_cached_song` call raises
`msg`: no `try/except` guards it, so `analyze` itself raises and neither the
collaborators nor the cache write run. -/
def analyze_readFault (msg : String) (fetch_lyrics : Except String String)
    (interpret : String → Except String String) (db : DB) :
    Except String AnalyzeResult × DB :=
  analyzeE (.error msg) fetch_lyrics interpret none db

/-- `bot.song_received` (the history-relevant tail): run `analyze` inside
`try`; on success the reply is sent with `success := True`,
`error_message := None`; on an exception `success` stays `False` and
`error_message := str(e)`; the `finally` block always appends one
`add_query_to_history(user.id, artist, song_name, success, error_message)`.
Returns the final database state. -/
def song_received (user_id : Nat) (artist song : String)
    (fetch_lyrics : Except String String)
    (interpret : String → Except String String) (now : Nat) (db : DB) : DB :=
  match analyze artist song fetch_lyrics interpret now db with
  | (.ok _, db₁) =>
      (add_query_to_history user_id artist song true none now db₁).2
  | (.error e, db₁) =>
      (add_query_to_history user_id artist song false (some e) now db₁).2

/-- One Result Store operation, for stating invariants over arbitrary
operation sequences (`get_cached_song` / `cache_song` / `clean_old_cache`). -/
inductive StoreOp where
  | get (artist song : String) (now : Nat)
  | put (artist song lyrics : String) (summary : Option String) (now : Nat)
  | evict (days now : Nat)
deriving Repr

/-- Apply one store operation to the database (dropping the returned value). -/
def applyOp (db : DB) : StoreOp → DB
  | .get a s n => (get_cached_song a s n db).2
  | .put a s l su n => (cache_song a s l su n db).2
  | .evict d n => (clean_old_cache d n db).2

/-- Run a sequence of store operations left to right. -/
def runOps (db : DB) (ops : List StoreOp) : DB := ops.foldl applyOp db

/-- At most one cache row per raw `(artist, song_name)` pair — the
uniqueness the schema actually declares (`UNIQUE(artist, song_name)`). -/
def rawUnique (db : DB) : Prop :=
  db.song_cache.Pairwise fun e₁ e₂ =>
    ¬(e₁.artist = e₂.artist ∧ e₁.song_name = e₂.song_name)

/-- The lookup key `get_cached_song` computes for a query pair. -/
def cacheKey (artist song : String) : String × String :=
  (pyNormalize artist, pyNormalize song)

/-- The normalized key of a stored row, as SQL computes it. -/
def entryKey (e : CacheEntry) : String × String :=
  (sqlNormalize e.artist, sqlNormalize e.song_name)

/-- At most one cache row per normalized key — the uniqueness the spec
claims. -/
def normUnique (db : DB) : Prop :=
  db.song_cache.Pairwise fun e₁ e₂ => entryKey e₁ ≠ entryKey e₂

/-- Number of history rows recorded for a requester. -/
def historyCount (user_id : Nat) (db : DB) : Nat :=
  db.query_history.countP (·.user_id == user_id)

/-- Sum of `total_requests` over the rows of a requester (a single row when
the `user_id` primary key is unique). -/
def userRequests (user_id : Nat) (db : DB) : Nat :=
  (db.users.map fun u => if u.user_id == user_id then u.total_requests else 0).sum

lemma length_filter_add_compl {α : Type} (p : α → Bool) (l : List α) :
    (l.filter p).length + (l.filter fun a => !p a).length = l.length := by
  induction l with
  | nil => rfl
  | cons a t ih => cases h : p a <;> simp [List.filter_cons, h] <;> omega

lemma map_id_of_id_preserving {l : List CacheEntry} {f : CacheEntry → CacheEntry}
    (h : ∀ e, (f e).id = e.id) : (l.map f).map (·.id) = l.map (·.id) := by
  induction l with
  | nil => rfl
  | cons a t ih => simp [h, ih]

lemma getBump_id (row : CacheEntry) (now : Nat) (e : CacheEntry) :
    (if e.id == row.id then
        { e with access_count := e.access_count + 1, last_accessed := now }
      else e).id = e.id := by
  split <;> rfl

lemma get_cached_song_frame (artist song : String) (now : Nat) (db : DB) :
    (get_cached_song artist song now db).2.users = db.users ∧
    (get_cached_song artist song now db).2.query_history = db.query_history ∧
    (get_cached_song artist song now db).2.next_history_id = db.next_history_id ∧
    (get_cached_song artist song now db).2.next_cache_id = db.next_cache_id ∧
    (get_cached_song artist song now db).2.song_cache.map (·.id) =
      db.song_cache.map (·.id) := by
  unfold get_cached_song
  cases h : db.song_cache.find? (getMatch artist song) with
  | none => simp
  | some row =>
      refine ⟨rfl, rfl, rfl, rfl, ?_⟩
      exact map_id_of_id_preserving (getBump_id row now)

/-- C5: a `get_cached_song` miss leaves the store untouched; a hit returns a
row of the store matching the normalized key and, as part of the same
operation, bumps exactly that row's `access_count` by one and refreshes its
`last_accessed`, leaving every other row and table unchanged — so a
subsequent read observes the incremented counter. -/
theorem get_cached_song_read_side_effect (artist song : String) (now : Nat)
    (db : DB) :
    ((get_cached_song artist song now db).1 = none →
        (get_cached_song artist song now db).2 = db) ∧
    (∀ r, (get_cached_song artist song now db).1 = some r →
        r ∈ db.song_cache ∧ getMatch artist song r = true ∧
        (get_cached_song artist song now db).2 =
          { db with song_cache := db.song_cache.map fun e =>
              if e.id == r.id then
                { e with access_count := e.access_count + 1,
                         last_accessed := now }
              else e }) := by
  unfold get_cached_song
  cases h : db.song_cache.find? (getMatch artist song) with
  | none =>
      constructor
      · intro _; rfl
      · intro r hr; simp at hr
  | some row =>
      constructor
      · intro hc; simp at hc
      · intro r hr
        simp only [] at hr
        cases hr
        exact ⟨List.mem_of_find?_eq_some h, List.find?_some h, rfl⟩

theorem get_cached_song_read_side_effect_witness :
    (get_cached_song "drake" "x" 7
        ⟨[], [], 1, [⟨1, "drake", "x", "l", some "a", 3, 1, 3⟩], 2⟩).2 =
      ⟨[], [], 1, [⟨1, "drake", "x", "l", some "a", 3, 2, 7⟩], 2⟩ :=
  (((get_cached_song_read_side_effect "drake" "x" 7
        ⟨[], [], 1, [⟨1, "drake", "x", "l", some "a", 3, 1, 3⟩], 2⟩).2
      ⟨1, "drake", "x", "l", some "a", 3, 1, 3⟩ (by decide)).2.2).trans
    (by decide)

/-- C6: `clean_old_cache` keeps exactly the rows that fail the staleness
conjunction — a row survives iff its `last_accessed` is within the age
threshold OR its `access_count` reaches the popularity bound (5, the SQL
literal) — returns the number of deleted rows, and touches no other table.
In particular a 31-day-old row with `access_count = 2` is deleted by
`clean_old_cache 30` while an equally old row with `access_count = 10`
survives (instantiated in the witness). -/
theorem clean_old_cache_spec (days now : Nat) (db : DB) :
    (∀ e, e ∈ (clean_old_cache days now db).2.song_cache ↔
        e ∈ db.song_cache ∧
          ¬(e.last_accessed < now - days ∧ e.access_count < 5)) ∧
    (clean_old_cache days now db).1 +
        (clean_old_cache days now db).2.song_cache.length =
      db.song_cache.length ∧
    (clean_old_cache days now db).2.users = db.users ∧
    (clean_old_cache days now db).2.query_history = db.query_history := by
  refine ⟨fun e => ?_, ?_, rfl, rfl⟩
  · show e ∈ db.song_cache.filter (fun e => !staleTest days now e) ↔ _
    rw [List.mem_filter]
    refine and_congr_right fun _ => ?_
    simp [staleTest]
    omega
  · exact length_filter_add_compl _ _

theorem clean_old_cache_spec_witness :
    (⟨2, "b", "t", "l", none, 9, 10, 9⟩ : CacheEntry) ∈
        (clean_old_cache 30 40
          ⟨[], [], 1, [⟨1, "a", "s", "l", none, 9, 2, 9⟩,
                       ⟨2, "b", "t", "l", none, 9, 10, 9⟩], 3⟩).2.song_cache ∧
    (⟨1, "a", "s", "l", none, 9, 2, 9⟩ : CacheEntry) ∉
        (clean_old_cache 30 40
          ⟨[], [], 1, [⟨1, "a", "s", "l", none, 9, 2, 9⟩,
                       ⟨2, "b", "t", "l", none, 9, 10, 9⟩], 3⟩).2.song_cache ∧
    (clean_old_cache 30 40
        ⟨[], [], 1, [⟨1, "a", "s", "l", none, 9, 2, 9⟩,
                     ⟨2, "b", "t", "l", none, 9, 10, 9⟩], 3⟩).1 = 1 :=
  ⟨((clean_old_cache_spec 30 40 _).1 _).mpr (by decide),
   ((clean_old_cache_spec 30 40 _).1 _).not.mpr (by decide),
   by decide⟩

lemma popBeforeRow_toPopular (a b : CacheEntry) :
    popBeforeRow a.toPopular b.toPopular ↔ popBefore a b := Iff.rfl

/-- C7: `get_popular_songs` returns at most `limit` rows, sorted by
`access_count` descending with ties broken by the more recent
`last_accessed` first, all drawn from the cache table; on a cache holding
counts `[5, 5, 3]` whose two count-5 rows differ in `last_accessed`,
`get_popular_songs 2` returns exactly the two count-5 rows, the
more-recently-accessed one first. -/
theorem get_popular_songs_spec (limit : Nat) (db : DB) :
    (get_popular_songs limit db).length ≤ limit ∧
    List.Sorted popBeforeRow (get_popular_songs limit db) ∧
    List.Subperm (get_popular_songs limit db)
      (db.song_cache.map CacheEntry.toPopular) ∧
    get_popular_songs 2
        ⟨[], [], 1, [⟨1, "a", "s", "l", none, 0, 5, 100⟩,
                     ⟨2, "b", "t", "l", none, 0, 5, 200⟩,
                     ⟨3, "c", "u", "l", none, 0, 3, 300⟩], 4⟩ =
      [⟨"b", "t", 5, 200⟩, ⟨"a", "s", 5, 100⟩] := by
  refine ⟨?_, ?_, ?_, by decide⟩
  · calc (get_popular_songs limit db).length
        = ((List.insertionSort popBefore db.song_cache).take limit).length := by
          simp [get_popular_songs]
      _ ≤ limit := List.length_take_le limit _
  · unfold get_popular_songs
    rw [List.Sorted, List.pairwise_map]
    exact ((List.sorted_insertionSort popBefore db.song_cache).sublist
      (List.take_sublist limit _))
  · unfold get_popular_songs
    exact ((List.take_sublist limit _).map CacheEntry.toPopular).subperm.trans
      ((List.perm_insertionSort popBefore db.song_cache).map
        CacheEntry.toPopular).subperm

lemma getBump_artist (row : CacheEntry) (now : Nat) (e : CacheEntry) :
    (if e.id == row.id then
        { e with access_count := e.access_count + 1, last_accessed := now }
      else e).artist = e.artist := by
  split <;> rfl

lemma getBump_song (row : CacheEntry) (now : Nat) (e : CacheEntry) :
    (if e.id == row.id then
        { e with access_count := e.access_count + 1, last_accessed := now }
      else e).song_name = e.song_name := by
  split <;> rfl

lemma putOverwrite_artist (artist song lyrics : String) (summary : Option String)
    (now : Nat) (e : CacheEntry) :
    (putOverwrite artist song lyrics summary now e).artist = e.artist := by
  unfold putOverwrite; split <;> rfl

lemma putOverwrite_song (artist song lyrics : String) (summary : Option String)
    (now : Nat) (e : CacheEntry) :
    (putOverwrite artist song lyrics summary now e).song_name = e.song_name := by
  unfold putOverwrite; split <;> rfl

lemma putOverwrite_id (artist song lyrics : String) (summary : Option String)
    (now : Nat) (e : CacheEntry) :
    (putOverwrite artist song lyrics summary now e).id = e.id := by
  unfold putOverwrite; split <;> rfl

lemma rawUnique_map {l : List CacheEntry} {f : CacheEntry → CacheEntry}
    (hfa : ∀ e, (f e).artist = e.artist)
    (hfs : ∀ e, (f e).song_name = e.song_name)
    (h : l.Pairwise fun e₁ e₂ =>
      ¬(e₁.artist = e₂.artist ∧ e₁.song_name = e₂.song_name)) :
    (l.map f).Pairwise fun e₁ e₂ =>
      ¬(e₁.artist = e₂.artist ∧ e₁.song_name = e₂.song_name) := by
  rw [List.pairwise_map]
  refine h.imp ?_
  intro x y hxy
  simpa [hfa, hfs] using hxy

lemma rawUnique_get (artist song : String) (now : Nat) (db : DB)
    (h : rawUnique db) : rawUnique (get_cached_song artist song now db).2 := by
  unfold rawUnique get_cached_song
  cases hf : db.song_cache.find? (getMatch artist song) with
  | none => exact h
  | some row =>
      exact rawUnique_map (getBump_artist row now) (getBump_song row now) h

lemma rawUnique_put (artist song lyrics : String) (summary : Option String)
    (now : Nat) (db : DB) (h : rawUnique db) :
    rawUnique (cache_song artist song lyrics summary now db).2 := by
  unfold rawUnique cache_song
  cases ha : db.song_cache.any (rawMatch artist song) with
  | true =>
      simp only [if_pos rfl]
      exact rawUnique_map (putOverwrite_artist artist song lyrics summary now)
        (putOverwrite_song artist song lyrics summary now) h
  | false =>
      simp only [Bool.false_eq_true, if_neg, ite_false]
      refine List.pairwise_append.mpr ⟨h, List.pairwise_singleton _ _, ?_⟩
      intro x hx y hy hc
      rw [List.mem_singleton] at hy
      subst hy
      have := (List.any_eq_false.mp ha) x hx
      rw [rawMatch] at this
      simp only [Bool.and_eq_true, beq_iff_eq] at this
      exact this ⟨hc.1, hc.2⟩

lemma rawUnique_evict (days now : Nat) (db : DB) (h : rawUnique db) :
    rawUnique (clean_old_cache days now db).2 :=
  List.Pairwise.sublist (List.filter_sublist _) h

lemma rawUnique_applyOp (db : DB) (op : StoreOp) (h : rawUnique db) :
    rawUnique (applyOp db op) := by
  cases op with
  | get a s n => exact rawUnique_get a s n db h
  | put a s l su n => exact rawUnique_put a s l su n db h
  | evict d n => exact rawUnique_evict d n db h

lemma rawUnique_runOps (ops : List StoreOp) (db : DB) (h : rawUnique db) :
    rawUnique (runOps db ops) := by
  induction ops generalizing db with
  | nil => exact h
  | cons op rest ih => exact ih (applyOp db op) (rawUnique_applyOp db op h)

/-- C2 (amended): after any sequence of Result Store operations on a freshly
initialised store, at most one cache row exists per RAW `(artist, song_name)`
pair — the uniqueness `UNIQUE(artist, song_name)` actually enforces. Two
`cache_song` calls whose raw keys differ only in case or surrounding
whitespace are NOT reconciled and do create two distinct rows with the same
normalized key (see the counterexample); only raw-identical keys are
deduplicated. -/
theorem store_ops_raw_unique (ops : List StoreOp) :
    rawUnique (runOps emptyDB ops) :=
  rawUnique_runOps ops emptyDB (List.Pairwise.nil)

/-- C2 counterexample: two `cache_song` calls whose raw keys differ only in
case produce two distinct cache rows (ids 1 and 2) carrying the same
normalized `(artist, title)` key, refuting the claimed at-most-one-row-per-
normalized-key invariant. -/
theorem store_norm_unique_cex :
    (runOps emptyDB [.put "Drake" "X" "l" none 0,
                     .put "DRAKE" "X" "l" none 0]).song_cache.map entryKey =
      [("drake", "x"), ("drake", "x")] ∧
    (runOps emptyDB [.put "Drake" "X" "l" none 0,
                     .put "DRAKE" "X" "l" none 0]).song_cache.map (·.id) =
      [1, 2] := by
  constructor <;> decide

lemma find?_map_pred_comm {α : Type} (f : α → α) (p : α → Bool) (l : List α)
    (hp : ∀ a, p (f a) = p a) : (l.map f).find? p = (l.find? p).map f := by
  induction l with
  | nil => rfl
  | cons a t ih =>
      rw [List.map_cons]
      cases hpa : p a with
      | true =>
          rw [List.find?_cons_of_pos _ (by rw [hp]; exact hpa),
             List.find?_cons_of_pos _ hpa]
          rfl
      | false =>
          rw [List.find?_cons_of_neg _ (by rw [hp, hpa]; simp),
             List.find?_cons_of_neg _ (by rw [hpa]; simp)]
          exact ih

lemma putMatch_putOverwrite (artist song lyrics : String)
    (summary : Option String) (now : Nat) (e : CacheEntry) :
    putMatch artist song (putOverwrite artist song lyrics summary now e) =
      putMatch artist song e := by
  unfold putOverwrite; split <;> rfl

lemma rawMatch_imp_putMatch (artist song : String) (e : CacheEntry)
    (h : rawMatch artist song e = true) : putMatch artist song e = true := by
  rw [rawMatch, Bool.and_eq_true, beq_iff_eq, beq_iff_eq] at h
  rw [putMatch, h.1, h.2]
  simp

/-- C3 (amended): when a row with the same RAW `(artist, song_name)` pair
already exists, `cache_song` does not surface the uniqueness violation:
it falls back to overwriting lyrics and summary, incrementing the access
counter and refreshing `last_accessed` on every normalized-key match, and
returns the id of the first normalized match — the id of an existing row,
never a failure. (When only a normalized-equal but raw-different row
exists, the insert succeeds instead and no overwrite happens — see the
counterexample.) -/
theorem cache_song_upsert_on_raw_conflict (artist song lyrics : String)
    (summary : Option String) (now : Nat) (db : DB)
    (h : db.song_cache.any (rawMatch artist song) = true) :
    (cache_song artist song lyrics summary now db).2 =
      { db with song_cache :=
          db.song_cache.map (putOverwrite artist song lyrics summary now) } ∧
    (cache_song artist song lyrics summary now db).1 =
      (db.song_cache.find? (putMatch artist song)).map (·.id) ∧
    ∃ e, e ∈ db.song_cache ∧
      (cache_song artist song lyrics summary now db).1 = some e.id := by
  have hcomm := find?_map_pred_comm
    (putOverwrite artist song lyrics summary now) (putMatch artist song)
    db.song_cache (putMatch_putOverwrite artist song lyrics summary now)
  have hfst : (cache_song artist song lyrics summary now db).1 =
      (db.song_cache.find? (putMatch artist song)).map (·.id) := by
    unfold cache_song
    rw [if_pos h]
    show ((db.song_cache.map
        (putOverwrite artist song lyrics summary now)).find?
          (putMatch artist song)).map (·.id) = _
    rw [hcomm]
    cases db.song_cache.find? (putMatch artist song) with
    | none => rfl
    | some e => simp [putOverwrite_id]
  obtain ⟨e₀, he₀, hp₀⟩ := List.any_eq_true.mp h
  have hsome : (db.song_cache.find? (putMatch artist song)).isSome :=
    List.find?_isSome.mpr ⟨e₀, he₀, rawMatch_imp_putMatch artist song e₀ hp₀⟩
  obtain ⟨e₁, hfind⟩ := Option.isSome_iff_exists.mp hsome
  refine ⟨?_, hfst, e₁, List.mem_of_find?_eq_some hfind, ?_⟩
  · unfold cache_song
    rw [if_pos h]
  · rw [hfst, hfind]
    rfl

theorem cache_song_upsert_on_raw_conflict_witness :
    (cache_song "a" "s" "l1" (some "y") 9
        ⟨[], [], 1, [⟨1, "a", "s", "l0", some "x", 0, 3, 0⟩], 2⟩).2 =
      ⟨[], [], 1, [⟨1, "a", "s", "l1", some "y", 0, 4, 9⟩], 2⟩ ∧
    (cache_song "a" "s" "l1" (some "y") 9
        ⟨[], [], 1, [⟨1, "a", "s", "l0", some "x", 0, 3, 0⟩], 2⟩).1 = some 1 := by
  have hthm := cache_song_upsert_on_raw_conflict "a" "s" "l1" (some "y") 9
    ⟨[], [], 1, [⟨1, "a", "s", "l0", some "x", 0, 3, 0⟩], 2⟩ (by decide)
  exact ⟨hthm.1.trans (by decide), hthm.2.1.trans (by decide)⟩

/-- C3 counterexample: the store holds a row whose normalized key equals the
put's key but whose raw key differs in case; `cache_song` then INSERTS a
second row (id 2) instead of overwriting — the existing row keeps its old
lyrics, summary and access counter — refuting the claimed overwrite-and-
return-existing-identity behaviour for normalized-key conflicts. -/
theorem cache_song_norm_conflict_cex :
    cache_song "Drake" "x" "new" (some "s1") 5
        ⟨[], [], 1, [⟨1, "drake", "x", "old", some "s0", 0, 1, 0⟩], 2⟩ =
      (some 2,
       ⟨[], [], 1, [⟨1, "drake", "x", "old", some "s0", 0, 1, 0⟩,
                    ⟨2, "Drake", "x", "new", some "s1", 5, 1, 5⟩], 3⟩) ∧
    entryKey ⟨1, "drake", "x", "old", some "s0", 0, 1, 0⟩ =
      entryKey ⟨2, "Drake", "x", "new", some "s1", 5, 1, 5⟩ := by
  constructor <;> decide

lemma getMatch_iff (artist song : String) (e : CacheEntry) :
    getMatch artist song e = true ↔ entryKey e = cacheKey artist song := by
  rw [getMatch, Bool.and_eq_true, beq_iff_eq, beq_iff_eq, entryKey, cacheKey,
    Prod.mk.injEq]

lemma find?_eq_some_of_mem_unique {α : Type} (p : α → Bool) (l : List α)
    (e : α) (he : e ∈ l) (hpe : p e = true)
    (hu : ∀ x ∈ l, p x = true → x = e) : l.find? p = some e := by
  induction l with
  | nil => cases he
  | cons a t ih =>
      by_cases hpa : p a = true
      · rw [List.find?_cons_of_pos _ hpa, hu a (List.mem_cons_self a t) hpa]
      · rw [List.find?_cons_of_neg _ hpa]
        have hne : e ≠ a := by
          intro hh
          exact hpa (hh ▸ hpe)
        apply ih
        · rcases List.mem_cons.mp he with h1 | h1
          · exact absurd h1 hne
          · exact h1
        · intro x hx hpx
          exact hu x (List.mem_cons_of_mem a hx) hpx

/-- C4 (amended): the lookup key is the deterministic pure transform
`(pyNormalize artist, pyNormalize song)` — lowercase then trim the ends,
internal whitespace untouched — and two raw pairs map to the same key iff
they agree componentwise after the transform. When the stored rows carry
pairwise-distinct normalized keys, `get_cached_song` on any raw pair whose
key equals a stored row's normalized key returns exactly that row.
(Without the distinctness assumption `fetchone` returns only the first of
several rows sharing a normalized key — see the counterexample.) -/
theorem get_cached_song_normalized_lookup (artist song a2 t2 : String)
    (now : Nat) (db : DB) (e : CacheEntry)
    (huniq : normUnique db) (he : e ∈ db.song_cache)
    (hkey : entryKey e = cacheKey artist song) :
    (cacheKey artist song = cacheKey a2 t2 ↔
      pyNormalize artist = pyNormalize a2 ∧
        pyNormalize song = pyNormalize t2) ∧
    (get_cached_song artist song now db).1 = some e := by
  constructor
  · rw [cacheKey, cacheKey, Prod.mk.injEq]
  · have hforall := List.Pairwise.forall
      (fun {x y} (h : entryKey x ≠ entryKey y) => h.symm) huniq
    have hfind : db.song_cache.find? (getMatch artist song) = some e := by
      apply find?_eq_some_of_mem_unique _ _ e he
        ((getMatch_iff artist song e).mpr hkey)
      intro x hx hpx
      by_contra hne
      exact hforall hx he hne
        (((getMatch_iff artist song x).mp hpx).trans hkey.symm)
    unfold get_cached_song
    rw [hfind]

theorem get_cached_song_normalized_lookup_witness :
    (cacheKey " drake " "HOTLINE BLING" = cacheKey "Drake" "Hotline Bling" ↔
      pyNormalize " drake " = pyNormalize "Drake" ∧
        pyNormalize "HOTLINE BLING" = pyNormalize "Hotline Bling") ∧
    (get_cached_song " drake " "HOTLINE BLING" 5
        ⟨[], [], 1,
         [⟨1, "Drake", "Hotline Bling", "l", some "a", 0, 1, 0⟩], 2⟩).1 =
      some ⟨1, "Drake", "Hotline Bling", "l", some "a", 0, 1, 0⟩ :=
  get_cached_song_normalized_lookup " drake " "HOTLINE BLING" "Drake"
    "Hotline Bling" 5
    ⟨[], [], 1, [⟨1, "Drake", "Hotline Bling", "l", some "a", 0, 1, 0⟩], 2⟩
    ⟨1, "Drake", "Hotline Bling", "l", some "a", 0, 1, 0⟩
    (by unfold normUnique; exact List.pairwise_singleton _ _)
    (by decide) (by decide)

/-- C4 counterexample: with two stored rows sharing the normalized key
`("drake", "x")` (possible because uniqueness is enforced on the raw pair
only), the raw query pair `("Drake", "x")` is equal — after the trim-and-
lowercase transform — to the second stored row's pair, yet
`get_cached_song` returns the first row, a different entry, refuting
"get returns that same entry" as stated. -/
theorem get_lookup_duplicate_cex :
    (get_cached_song "Drake" "x" 9
        ⟨[], [], 1, [⟨1, "drake", "x", "l1", some "a", 0, 1, 0⟩,
                     ⟨2, "Drake", "x", "l2", some "b", 0, 1, 0⟩], 3⟩).1 =
      some ⟨1, "drake", "x", "l1", some "a", 0, 1, 0⟩ ∧
    entryKey ⟨2, "Drake", "x", "l2", some "b", 0, 1, 0⟩ =
      cacheKey "Drake" "x" ∧
    (⟨1, "drake", "x", "l1", some "a", 0, 1, 0⟩ : CacheEntry) ≠
      ⟨2, "Drake", "x", "l2", some "b", 0, 1, 0⟩ := by
  refine ⟨by decide, by decide, by decide⟩

lemma analyzeE_miss (ropt : Option CacheEntry) (db₂ : DB)
    (h : truthyHit ropt = false) (f : Except String String)
    (i : String → Except String String)
    (w : Option (String → Option String → DB → DB)) (db₀ : DB) :
    analyzeE (.ok (ropt, db₂)) f i w db₀ = analyzeFetchPath f i w db₂ := by
  cases ropt with
  | none => rfl
  | some row =>
      obtain ⟨rid, rar, rsn, rly, rsum, rca, rac, rla⟩ := row
      cases rsum with
      | none => rfl
      | some s =>
          have hb : (s == "") = true := by
            simpa [truthyHit, truthySummary] using h
          simp [analyzeE, hb]

lemma analyzeE_hit (row : CacheEntry) (db₂ : DB) (s : String)
    (hs : row.analysis_summary = some s) (hne : s ≠ "")
    (f : Except String String) (i : String → Except String String)
    (w : Option (String → Option String → DB → DB)) (db₀ : DB) :
    analyzeE (.ok (some row, db₂)) f i w db₀ =
      (.ok { summary := s, lyrics := some row.lyrics, from_cache := true },
       db₂) := by
  obtain ⟨rid, rar, rsn, rly, rsum, rca, rac, rla⟩ := row
  simp only [] at hs
  subst hs
  have hb : (s == "") = false := beq_eq_false_iff_ne.mpr hne
  simp [analyzeE, hb]

lemma analyze_miss_eq (artist song : String) (f : Except String String)
    (i : String → Except String String) (now : Nat) (db : DB)
    (hmiss : truthyHit (get_cached_song artist song now db).1 = false) :
    analyze artist song f i now db =
      analyzeFetchPath f i
        (some fun lyr su db2 => (cache_song artist song lyr su now db2).2)
        (get_cached_song artist song now db).2 := by
  unfold analyze
  rcases hget : get_cached_song artist song now db with ⟨ropt, db₂⟩
  rw [hget] at hmiss
  exact analyzeE_miss ropt db₂ hmiss f i _ db

/-- C1 (amended): on a fresh store, `analyze("Radiohead", "Creep")` with a
stubbed fetch returning lyrics `L` and stubbed compute returning a non-empty
summary `S` returns `{summary: S, from_cache: false}` WITHOUT a `lyrics`
field (`interpret_lyrics` returns only `{'summary': ...}`), and caches the
entry with `access_count = 1`; a second identical call is served from cache
without invoking any collaborator (the stubs here fail, yet the call
succeeds), returns `{summary: S, lyrics: L, from_cache: true}`, and leaves
the cache entry with `access_count = 2`. -/
theorem analyze_cache_aside_scenario (L S : String) (hS : S ≠ "")
    (fetch2 : Except String String)
    (interpret2 : String → Except String String) :
    analyze "Radiohead" "Creep" (.ok L) (fun _ => .ok S) 0 emptyDB =
      (.ok { summary := S, lyrics := none, from_cache := false },
       ⟨[], [], 1, [⟨1, "Radiohead", "Creep", L, some S, 0, 1, 0⟩], 2⟩) ∧
    analyze "Radiohead" "Creep" fetch2 interpret2 1
        ⟨[], [], 1, [⟨1, "Radiohead", "Creep", L, some S, 0, 1, 0⟩], 2⟩ =
      (.ok { summary := S, lyrics := some L, from_cache := true },
       ⟨[], [], 1, [⟨1, "Radiohead", "Creep", L, some S, 0, 2, 1⟩], 2⟩) := by
  constructor
  · rfl
  · have hmatch : getMatch "Radiohead" "Creep"
        ⟨1, "Radiohead", "Creep", L, some S, 0, 1, 0⟩ = true := by
      show (sqlNormalize "Radiohead" == pyNormalize "Radiohead" &&
        (sqlNormalize "Creep" == pyNormalize "Creep")) = true
      decide
    have hget : get_cached_song "Radiohead" "Creep" 1
        ⟨[], [], 1, [⟨1, "Radiohead", "Creep", L, some S, 0, 1, 0⟩], 2⟩ =
        (some ⟨1, "Radiohead", "Creep", L, some S, 0, 1, 0⟩,
         ⟨[], [], 1, [⟨1, "Radiohead", "Creep", L, some S, 0, 2, 1⟩], 2⟩) := by
      unfold get_cached_song
      rw [List.find?_cons_of_pos _ hmatch]
      rfl
    unfold analyze
    rw [hget]
    exact analyzeE_hit _ _ S rfl hS _ _ _ _

theorem analyze_cache_aside_scenario_witness :
    analyze "Radiohead" "Creep" (.ok "L") (fun _ => .ok "S") 0 emptyDB =
      (.ok { summary := "S", lyrics := none, from_cache := false },
       ⟨[], [], 1, [⟨1, "Radiohead", "Creep", "L", some "S", 0, 1, 0⟩], 2⟩) ∧
    analyze "Radiohead" "Creep" (.error "down") (fun _ => .error "down") 1
        ⟨[], [], 1, [⟨1, "Radiohead", "Creep", "L", some "S", 0, 1, 0⟩], 2⟩ =
      (.ok { summary := "S", lyrics := some "L", from_cache := true },
       ⟨[], [], 1, [⟨1, "Radiohead", "Creep", "L", some "S", 0, 2, 1⟩], 2⟩) :=
  analyze_cache_aside_scenario "L" "S" (by decide) (.error "down")
    (fun _ => .error "down")

/-- C1 counterexample: the very first `analyze` call of the end-to-end
scenario returns a result whose `lyrics` field is absent (`none`), not the
fetched lyrics `"L"` — `interpret_lyrics` returns only `{'summary': ...}`
and `analyze` adds just `from_cache` — refuting the claim that the first
call's result contains lyrics `L`. -/
theorem analyze_first_call_lyrics_cex :
    (analyze "Radiohead" "Creep" (.ok "L") (fun _ => .ok "S") 0 emptyDB).1 =
      .ok { summary := "S", lyrics := none, from_cache := false } ∧
    (none : Option String) ≠ some "L" := by
  exact ⟨by decide, by decide⟩

/-- C9 (amended): a failing Result Store READ aborts `analyze` — the
exception from `get_cached_song` propagates unchanged (there is no
`try/except` around the read), with no fallback to the fetch/compute path;
a failing Result Store WRITE after a successful compute is swallowed by the
`try/except` around `cache_song` (only logged), and `analyze` still returns
the computed in-memory result. -/
theorem analyze_store_failure_paths (msg artist song lyr summ : String)
    (fetch : Except String String)
    (interpret : String → Except String String)
    (w : Option (String → Option String → DB → DB)) (db : DB) (now : Nat)
    (hmiss : truthyHit (get_cached_song artist song now db).1 = false)
    (hf : fetch = .ok lyr) (hi : interpret lyr = .ok summ) :
    analyzeE (.error msg) fetch interpret w db = (.error msg, db) ∧
    analyze_cacheWriteFault artist song fetch interpret now db =
      (.ok { summary := summ, lyrics := none, from_cache := false },
       (get_cached_song artist song now db).2) := by
  refine ⟨rfl, ?_⟩
  unfold analyze_cacheWriteFault
  rcases hget : get_cached_song artist song now db with ⟨ropt, db₂⟩
  rw [hget] at hmiss
  rw [analyzeE_miss ropt db₂ hmiss fetch interpret none db]
  subst hf
  unfold analyzeFetchPath
  dsimp only
  rw [hi]

theorem analyze_store_failure_paths_witness :
    analyzeE (.error "db down") (.ok "L") (fun _ => .ok "S") none emptyDB =
      (.error "db down", emptyDB) ∧
    analyze_cacheWriteFault "a" "t" (.ok "L") (fun _ => .ok "S") 0 emptyDB =
      (.ok { summary := "S", lyrics := none, from_cache := false },
       emptyDB) := by
  have hthm := analyze_store_failure_paths "db down" "a" "t" "L" "S"
    (.ok "L") (fun _ => .ok "S") none emptyDB 0 (by decide) rfl rfl
  exact ⟨hthm.1, hthm.2.trans (by decide)⟩

/-- C9 counterexample: with working collaborators, a normal `analyze` on a
miss returns the fetch/compute result, but when the store read raises the
call returns that error — it is NOT treated as a cache miss with a
fetch/compute fallback, refuting the claimed read-path behaviour. -/
theorem analyze_read_fault_cex :
    analyze_readFault "db down" (.ok "L") (fun _ => .ok "S") emptyDB =
      (.error "db down", emptyDB) ∧
    analyze "a" "t" (.ok "L") (fun _ => .ok "S") 0 emptyDB =
      (.ok { summary := "S", lyrics := none, from_cache := false },
       ⟨[], [], 1, [⟨1, "a", "t", "L", some "S", 0, 1, 0⟩], 2⟩) ∧
    (Except.error "db down" : Except String AnalyzeResult) ≠
      .ok { summary := "S", lyrics := none, from_cache := false } := by
  refine ⟨rfl, by decide, by decide⟩

lemma genius_error_ne_empty (msg : String) :
    "Ошибка Genius API: " ++ msg ≠ "" := by
  intro hc
  have h1 : ("Ошибка Genius API: " ++ msg).length = (0 : Nat) := by
    rw [hc]
    rfl
  rw [String.length_append] at h1
  have h2 : (0 : Nat) < "Ошибка Genius API: ".length := by decide
  omega

/-- C8: when the fetch collaborator fails, or the compute collaborator fails
with a non-empty message, on a cache miss (or a hit with empty summary),
`song_received` appends exactly one history record with `success = false`
and a non-empty `error_message` — `"Ошибка Genius API: " ++ e` for a fetch
failure, the collaborator's message for a compute failure — and the cache
gains no new row (the row ids are unchanged; nothing is cached, not even
fetched lyrics). -/
theorem song_received_failure_history (user_id : Nat) (artist song : String)
    (fetch : Except String String)
    (interpret : String → Except String String) (now : Nat) (db : DB)
    (hmiss : truthyHit (get_cached_song artist song now db).1 = false) :
    (∀ msg, fetch = .error msg →
      (song_received user_id artist song fetch interpret now db).query_history =
        db.query_history ++
          [newHistoryRow user_id artist song false
            (some ("Ошибка Genius API: " ++ msg)) now db] ∧
      "Ошибка Genius API: " ++ msg ≠ "" ∧
      (song_received user_id artist song fetch interpret now
          db).song_cache.map (·.id) =
        db.song_cache.map (·.id)) ∧
    (∀ lyr msg, fetch = .ok lyr → interpret lyr = .error msg → msg ≠ "" →
      (song_received user_id artist song fetch interpret now db).query_history =
        db.query_history ++
          [newHistoryRow user_id artist song false (some msg) now db] ∧
      (song_received user_id artist song fetch interpret now
          db).song_cache.map (·.id) =
        db.song_cache.map (·.id)) := by
  have herr : ∀ e, analyze artist song fetch interpret now db =
      (.error e, (get_cached_song artist song now db).2) →
      (song_received user_id artist song fetch interpret now db).query_history =
        db.query_history ++
          [newHistoryRow user_id artist song false (some e) now db] ∧
      (song_received user_id artist song fetch interpret now
          db).song_cache.map (·.id) =
        db.song_cache.map (·.id) := by
    intro e ha
    obtain ⟨hu, hq, hn, hc, hids⟩ := get_cached_song_frame artist song now db
    unfold song_received
    rw [ha]
    constructor
    · show (get_cached_song artist song now db).2.query_history ++
        [newHistoryRow user_id artist song false (some e) now
          (get_cached_song artist song now db).2] = _
      rw [hq]
      unfold newHistoryRow
      rw [hn]
    · show ((get_cached_song artist song now db).2.song_cache).map (·.id) = _
      exact hids
  constructor
  · intro msg hf
    have ha : analyze artist song fetch interpret now db =
        (.error ("Ошибка Genius API: " ++ msg),
         (get_cached_song artist song now db).2) := by
      rw [analyze_miss_eq artist song fetch interpret now db hmiss, hf]
      rfl
    obtain ⟨h1, h2⟩ := herr _ ha
    exact ⟨h1, genius_error_ne_empty msg, h2⟩
  · intro lyr msg hf hi hne
    have ha : analyze artist song fetch interpret now db =
        (.error msg, (get_cached_song artist song now db).2) := by
      rw [analyze_miss_eq artist song fetch interpret now db hmiss, hf]
      unfold analyzeFetchPath
      dsimp only
      rw [hi]
    obtain ⟨h1, h2⟩ := herr _ ha
    exact ⟨h1, h2⟩

theorem song_received_failure_history_witness :
    (song_received 7 "a" "s" (.error "boom") (fun _ => .ok "S") 0
        emptyDB).query_history =
      [⟨1, 7, "a", "s", 0, false, some "Ошибка Genius API: boom"⟩] ∧
    "Ошибка Genius API: " ++ "boom" ≠ "" ∧
    (song_received 7 "a" "s" (.error "boom") (fun _ => .ok "S") 0
        emptyDB).song_cache.map (·.id) = [] := by
  have hthm := (song_received_failure_history 7 "a" "s" (.error "boom")
    (fun _ => .ok "S") 0 emptyDB (by decide)).1 "boom" rfl
  exact ⟨hthm.1.trans (by decide), hthm.2.1, hthm.2.2.trans (by decide)⟩

lemma sum_map_bump {α : Type} (p : α → Bool) (f : α → Nat) (g : α → α)
    (hfg : ∀ u, f (g u) = f u + (if p u then 1 else 0)) (l : List α) :
    ((l.map g).map f).sum = (l.map f).sum + l.countP p := by
  induction l with
  | nil => rfl
  | cons a t ih =>
      simp only [List.map_cons, List.sum_cons, List.countP_cons, ih, hfg]
      omega

lemma sum_requests_bump (uid now : Nat) (l : List UserRow) :
    ((l.map fun u => if u.user_id == uid then
        { u with total_requests := u.total_requests + 1,
                 last_activity := now }
      else u).map fun u =>
        if u.user_id == uid then u.total_requests else 0).sum =
    (l.map fun u => if u.user_id == uid then u.total_requests else 0).sum +
      l.countP (·.user_id == uid) := by
  refine sum_map_bump (·.user_id == uid) _ _ (fun u => ?_) l
  cases hb : u.user_id == uid <;> simp [hb]

/-- C10: when exactly one profile row exists for the requester, an
`add_query_to_history` append adds exactly one history record for that
requester and increments the requester's `total_requests` counter by one in
the same call, so the counter-equals-record-count invariant is preserved;
and if the counter update raises after the history `INSERT` committed, the
history record is still durably present. -/
theorem add_query_to_history_counter (user_id : Nat) (artist song : String)
    (success : Bool) (err : Option String) (now : Nat) (db : DB)
    (hone : db.users.countP (·.user_id == user_id) = 1) :
    historyCount user_id
        (add_query_to_history user_id artist song success err now db).2 =
      historyCount user_id db + 1 ∧
    userRequests user_id
        (add_query_to_history user_id artist song success err now db).2 =
      userRequests user_id db + 1 ∧
    (historyCount user_id db = userRequests user_id db →
      historyCount user_id
          (add_query_to_history user_id artist song success err now db).2 =
        userRequests user_id
          (add_query_to_history user_id artist song success err now db).2) ∧
    (add_query_to_history_counterFault user_id artist song success err now
        db).query_history =
      db.query_history ++
        [newHistoryRow user_id artist song success err now db] := by
  have h1 : historyCount user_id
      (add_query_to_history user_id artist song success err now db).2 =
      historyCount user_id db + 1 := by
    show (db.query_history ++
        [newHistoryRow user_id artist song success err now db]).countP
          (·.user_id == user_id) = _
    rw [List.countP_append]
    simp [newHistoryRow, List.countP_cons, historyCount]
  have h2 : userRequests user_id
      (add_query_to_history user_id artist song success err now db).2 =
      userRequests user_id db + 1 := by
    show ((db.users.map fun u => if u.user_id == user_id then
        { u with total_requests := u.total_requests + 1,
                 last_activity := now }
      else u).map fun u =>
        if u.user_id == user_id then u.total_requests else 0).sum = _
    rw [sum_requests_bump, hone]
    rfl
  exact ⟨h1, h2, fun h => by rw [h1, h2, h], rfl⟩

theorem add_query_to_history_counter_witness :
    historyCount 7 (add_query_to_history 7 "a" "s" true none 4
        ⟨[⟨7, none, 0, 0, 0⟩], [], 1, [], 1⟩).2 = 1 ∧
    userRequests 7 (add_query_to_history 7 "a" "s" true none 4
        ⟨[⟨7, none, 0, 0, 0⟩], [], 1, [], 1⟩).2 = 1 := by
  have hthm := add_query_to_history_counter 7 "a" "s" true none 4
    ⟨[⟨7, none, 0, 0, 0⟩], [], 1, [], 1⟩ (by decide)
  exact ⟨hthm.1.trans (by decide), hthm.2.1.trans (by decide)⟩
